import Mathlib

set_option maxRecDepth 100000
set_option maxHeartbeats 2000000

/-!
Verification of the eSocial mTLS SOAP relay (the POST /api/esocial endpoint of
index.js together with its helpers makeHttpsRequest, buildSoapEnvelope and
getCurrentPeriod).

The JavaScript handler is shallowly embedded: request bodies become a structure
of optional string fields (absent JSON keys are none), JavaScript truthiness on
those fields is modelled by jsTruthy, the wall clock read by getCurrentPeriod is
an explicit JsDate argument carrying the epoch instant and the local timezone
offset, and the asynchronous outbound HTTPS call is modelled by a TransportEvent
describing what the network did (a response with chunks, a connection error, or
a timeout), which makeHttpsRequest classifies exactly as the source's event
handlers do.
-/

/-- Model of a JavaScript value destructured from the JSON request body: a field
is either absent (none) or a string. -/
structure RelayRequest where
  action : Option String
  ambiente : Option String
  privateKeyPem : Option String
  certificatePem : Option String
  tpInsc : Option String
  nrInsc : Option String
  perApur : Option String
  tpEvento : Option String
deriving DecidableEq, Repr

/-- JavaScript truthiness for an optional string field: undefined and the empty
string are falsy, every other string is truthy. -/
def jsTruthy : Option String → Bool
  | none => false
  | some s => !s.isEmpty

/-- JavaScript short-circuit defaulting v || d for an optional string field. -/
def jsOr (v : Option String) (d : String) : String :=
  if jsTruthy v then v.getD "" else d

/-- JavaScript String.prototype.substring(0, n): the first n characters. -/
def jsSubstringTo (s : String) (n : Nat) : String :=
  String.mk (s.data.take n)

/-- JavaScript String.prototype.padStart(n, c). -/
def jsPadStart (s : String) (n : Nat) (c : Char) : String :=
  if n ≤ s.length then s else String.mk (List.replicate (n - s.length) c) ++ s

/-- The nrInsc normalization of buildSoapEnvelope:
nrInsc.replace(/\D/g, '').substring(0, 8). -/
def nrInscFormatted (nrInsc : String) : String :=
  jsSubstringTo (String.mk (nrInsc.data.filter Char.isDigit)) 8

/-- Model of a JavaScript Date value: the epoch instant in milliseconds together
with the environment's timezone offset in minutes (the value returned by
getTimezoneOffset, positive west of Greenwich). -/
structure JsDate where
  epochMillis : Int
  tzOffsetMinutes : Int
deriving DecidableEq, Repr

/-- Civil date (year, month 1..12, day 1..31) from a count of days since
1970-01-01, by the standard Gregorian conversion. -/
def civilFromDays (z0 : Int) : Int × Int × Int :=
  let z := z0 + 719468
  let era := Int.fdiv z 146097
  let doe := z - era * 146097
  let yoe := Int.fdiv (doe - Int.fdiv doe 1460 + Int.fdiv doe 36524 - Int.fdiv doe 146096) 365
  let y := yoe + era * 400
  let doy := doe - (365 * yoe + Int.fdiv yoe 4 - Int.fdiv yoe 100)
  let mp := Int.fdiv (5 * doy + 2) 153
  let d := doy - Int.fdiv (153 * mp + 2) 5 + 1
  let m := mp + (if mp < 10 then 3 else -9)
  (y + (if m ≤ 2 then 1 else 0), m, d)

/-- Local-time milliseconds of a Date: the epoch instant shifted by the
environment's timezone offset (JavaScript local time = UTC - offset minutes). -/
def localMillis (d : JsDate) : Int :=
  d.epochMillis - d.tzOffsetMinutes * 60000

/-- Model of Date.prototype.getFullYear (local-time year). -/
def dateGetFullYear (d : JsDate) : Int :=
  (civilFromDays (Int.fdiv (localMillis d) 86400000)).1

/-- Model of Date.prototype.getMonth (local-time month, 0 to 11). -/
def dateGetMonth (d : JsDate) : Int :=
  (civilFromDays (Int.fdiv (localMillis d) 86400000)).2.1 - 1

/-- Transcription of getCurrentPeriod: local year and zero-padded local month of
the current Date, joined by a hyphen. -/
def getCurrentPeriod (now : JsDate) : String :=
  let year := dateGetFullYear now
  let month := jsPadStart (toString (dateGetMonth now + 1)) 2 '0'
  toString year ++ "-" ++ month

/-- The validator's three distinct client-error outcomes. -/
inductive ValidationError where
  | MissingCredentials
  | InvalidEnvironment
  | MissingTaxpayerIdentifiers
deriving DecidableEq, Repr

/-- Portuguese error strings of the three 400 responses. -/
def validationErrorMessage : ValidationError → String
  | .MissingCredentials => "Certificado digital (privateKeyPem e certificatePem) é obrigatório"
  | .InvalidEnvironment => "Ambiente inválido. Use: producao ou producao-restrita"
  | .MissingTaxpayerIdentifiers => "tpInsc e nrInsc são obrigatórios"

/-- First validator check: privateKeyPem and certificatePem both truthy. -/
def credentialsOk (r : RelayRequest) : Bool :=
  jsTruthy r.privateKeyPem && jsTruthy r.certificatePem

/-- Second validator check: ambiente truthy and one of the two recognized
environment identifiers. -/
def ambienteOk (r : RelayRequest) : Bool :=
  jsTruthy r.ambiente &&
    ((r.ambiente.getD "") == "producao" || (r.ambiente.getD "") == "producao-restrita")

/-- Third validator check: tpInsc and nrInsc both truthy. -/
def identifiersOk (r : RelayRequest) : Bool :=
  jsTruthy r.tpInsc && jsTruthy r.nrInsc

/-- The payload validation of the /api/esocial handler, in source order with
short-circuiting: the first failing check determines the error. -/
def validate (r : RelayRequest) : Option ValidationError :=
  if !credentialsOk r then some .MissingCredentials
  else if !ambienteOk r then some .InvalidEnvironment
  else if !identifiersOk r then some .MissingTaxpayerIdentifiers
  else none

/-- One entry of the ESOCIAL_URLS table. -/
structure EndpointConfig where
  hostname : String
  consulta : String
  download : String
deriving DecidableEq, Repr

/-- The ESOCIAL_URLS constant table, as a lookup from the environment string
(absent keys give none, as JavaScript property access gives undefined). -/
def ESOCIAL_URLS (ambiente : String) : Option EndpointConfig :=
  if ambiente = "producao" then
    some { hostname := "webservices.esocial.gov.br",
           consulta := "/servicos/empregador/consultarloteeventos/WsConsultarLoteEventos.svc",
           download := "/servicos/empregador/download/WsDownload.svc" }
  else if ambiente = "producao-restrita" then
    some { hostname := "webservices.producaorestrita.esocial.gov.br",
           consulta := "/servicos/empregador/consultarloteeventos/WsConsultarLoteEventos.svc",
           download := "/servicos/empregador/download/WsDownload.svc" }
  else none

/-- SOAPAction header value of the consultar branch. -/
def consultarSoapAction : String :=
  "http://www.esocial.gov.br/servicos/empregador/consulta/retornoProcessamento/v1_0_0/ServicoConsultarLoteEventos/ConsultarLoteEventos"

/-- SOAPAction header value of the download branch. -/
def downloadSoapAction : String :=
  "http://www.esocial.gov.br/servicos/empregador/download/v1_0_0/ServicoDownload/Download"

/-- The fixed template literal returned by buildSoapEnvelope for consultar. -/
def consultarEnvelope : String :=
  "<?xml version=\"1.0\" encoding=\"utf-8\"?>\n<soap:Envelope xmlns:soap=\"http://www.w3.org/2003/05/soap-envelope\" xmlns:v1=\"http://www.esocial.gov.br/servicos/empregador/consulta/retornoProcessamento/v1_0_0\">\n  <soap:Header/>\n  <soap:Body>\n    <v1:ConsultarLoteEventos>\n      <v1:consulta>\n        <eSocial xmlns=\"http://www.esocial.gov.br/schema/consulta/retornoProcessamento/v1_0_0\">\n          <consultaLoteEventos>\n            <protocoloEnvio>1</protocoloEnvio>\n          </consultaLoteEventos>\n        </eSocial>\n      </v1:consulta>\n    </v1:ConsultarLoteEventos>\n  </soap:Body>\n</soap:Envelope>"

/-- Download template literal up to the tpInsc insertion point. -/
def dlChunk1 : String :=
  "<?xml version=\"1.0\" encoding=\"utf-8\"?>\n<soap:Envelope xmlns:soap=\"http://www.w3.org/2003/05/soap-envelope\" xmlns:v1=\"http://www.esocial.gov.br/servicos/empregador/download/v1_0_0\">\n  <soap:Header/>\n  <soap:Body>\n    <v1:SolicitarDownloadEventos>\n      <v1:solicitacao>\n        <eSocial xmlns=\"http://www.esocial.gov.br/schema/download/solicitacao/v1_0_0\">\n          <download>\n            <ideEmpregador>\n              <tpInsc>"

/-- Download template literal between the tpInsc and nrInsc insertion points. -/
def dlChunk2 : String :=
  "</tpInsc>\n              <nrInsc>"

/-- Download template literal between the nrInsc and perApur insertion points. -/
def dlChunk3 : String :=
  "</nrInsc>\n            </ideEmpregador>\n            <solicDownload>\n              <perApur>"

/-- Download template literal between the perApur and tpEvento insertion points. -/
def dlChunk4 : String :=
  "</perApur>\n              <tpEvento>"

/-- Download template literal after the tpEvento insertion point. -/
def dlChunk5 : String :=
  "</tpEvento>\n            </solicDownload>\n          </download>\n        </eSocial>\n      </v1:solicitacao>\n    </v1:SolicitarDownloadEventos>\n  </soap:Body>\n</soap:Envelope>"

/-- Transcription of buildSoapEnvelope: the consultar branch returns a fixed
template, every other action builds the download envelope with the normalized
registration number. -/
def buildSoapEnvelope (action tpInsc nrInsc perApur tpEvento : String) : String :=
  if action = "consultar" then
    consultarEnvelope
  else
    dlChunk1 ++ tpInsc ++ dlChunk2 ++ nrInscFormatted nrInsc ++ dlChunk3 ++ perApur
      ++ dlChunk4 ++ tpEvento ++ dlChunk5

/-- The options object handed to https.request, together with the SOAP body
written to the socket. -/
structure OutboundCall where
  hostname : String
  port : Nat
  path : String
  method : String
  key : String
  cert : String
  rejectUnauthorized : Bool
  contentType : String
  contentLength : Nat
  soapAction : String
  timeout : Nat
  body : String
deriving DecidableEq, Repr, Inhabited

/-- The outbound call together with the handler locals echoed in the success
response body. -/
structure PreparedRequest where
  call : OutboundCall
  ambiente : String
  periodo : String
deriving DecidableEq, Repr, Inhabited

/-- Outcome of the handler up to (and excluding) the network interaction:
either one of the 400 validation responses, or the fully prepared outbound
request; internalCrash is the (provably unreachable) branch where the
environment lookup yields undefined and the handler body would throw. -/
inductive HandlerOutcome where
  | clientError (e : ValidationError)
  | call (p : PreparedRequest)
  | internalCrash
deriving DecidableEq, Repr

/-- The body of the /api/esocial handler after validation and endpoint lookup
succeed: the defaults (action, periodo, tpEvento), the SOAP body, the
SOAPAction header and the https.request options. -/
def prepareRequest (r : RelayRequest) (now : JsDate)
    (esocialConfig : EndpointConfig) : PreparedRequest :=
  let requestAction := jsOr r.action "download"
  let periodo := jsOr r.perApur (getCurrentPeriod now)
  let eventoTipo := jsOr r.tpEvento "S-5002"
  let path := if requestAction = "consultar" then esocialConfig.consulta
              else esocialConfig.download
  let soapBody := buildSoapEnvelope requestAction (r.tpInsc.getD "") (r.nrInsc.getD "")
                    periodo eventoTipo
  let soapAction := if requestAction = "consultar" then consultarSoapAction
                    else downloadSoapAction
  { call := {
      hostname := esocialConfig.hostname
      port := 443
      path := path
      method := "POST"
      key := r.privateKeyPem.getD ""
      cert := r.certificatePem.getD ""
      rejectUnauthorized := true
      contentType := "application/soap+xml;charset=UTF-8"
      contentLength := soapBody.utf8ByteSize
      soapAction := soapAction
      timeout := 30000
      body := soapBody }
    ambiente := r.ambiente.getD ""
    periodo := periodo }

/-- Transcription of the /api/esocial handler from payload validation up to the
invocation of makeHttpsRequest: validation in source order, then the endpoint
lookup and the preparation of the outbound request. -/
def relayHandler (r : RelayRequest) (now : JsDate) : HandlerOutcome :=
  match validate r with
  | some e => .clientError e
  | none =>
    match ESOCIAL_URLS (r.ambiente.getD "") with
    | none => .internalCrash
    | some esocialConfig => .call (prepareRequest r now esocialConfig)

/-- What the network did on the outbound call: the response event stream (a
status code and the data chunks delivered before end), a request error event,
or the timeout event. -/
inductive TransportEvent where
  | response (statusCode : Nat) (chunks : List String)
  | connectionError (message : String)
  | timeout
deriving DecidableEq, Repr

/-- The value makeHttpsRequest resolves with. -/
structure HttpsResult where
  data : String
  statusCode : Nat
deriving DecidableEq, Repr

/-- Transcription of the event handlers of makeHttpsRequest: the accumulated
chunks are accepted on a 2xx status and otherwise rejected with the status code
and the first 500 characters of the body; an error event rejects with the
wrapped message; the timeout event destroys the request and rejects with the
fixed message. The boolean records whether req.destroy() was called. -/
def makeHttpsRequest : TransportEvent → Except String HttpsResult × Bool
  | .response statusCode chunks =>
    let data := String.join chunks
    if 200 ≤ statusCode && statusCode < 300 then
      (.ok { data := data, statusCode := statusCode }, false)
    else
      (.error ("eSocial retornou status " ++ toString statusCode ++ ": "
        ++ jsSubstringTo data 500), false)
  | .connectionError message =>
    (.error ("Erro de conexão com eSocial: " ++ message), false)
  | .timeout =>
    (.error "Timeout na conexão com eSocial (30s)", true)

/-- The JSON body and status of a response of the /api/esocial endpoint; absent
JSON keys are none. -/
structure ApiResponse where
  httpStatus : Nat
  success : Bool
  error : Option String
  data : Option String
  statusCode : Option Nat
  ambiente : Option String
  periodo : Option String
  elapsed : Option Int
deriving DecidableEq, Repr

/-- The full /api/esocial endpoint: validation responses (400, no elapsed key in
the source's JSON), the success response (200) and the catch-all error response
(500 with elapsed). startMillis is Date.now() at entry, endMillis is Date.now()
at response time, so elapsed = endMillis - startMillis. The internalCrash
branch models the catch clause swallowing the TypeError of the (unreachable)
failed environment lookup. -/
def apiEsocial (r : RelayRequest) (now : JsDate) (tr : TransportEvent)
    (startMillis endMillis : Int) : ApiResponse :=
  match relayHandler r now with
  | .clientError e =>
    { httpStatus := 400, success := false, error := some (validationErrorMessage e),
      data := none, statusCode := none, ambiente := none, periodo := none, elapsed := none }
  | .internalCrash =>
    { httpStatus := 500, success := false, error := some "TypeError",
      data := none, statusCode := none, ambiente := none, periodo := none,
      elapsed := some (endMillis - startMillis) }
  | .call p =>
    match (makeHttpsRequest tr).1 with
    | .ok result =>
      { httpStatus := 200, success := true, error := none,
        data := some result.data, statusCode := some result.statusCode,
        ambiente := some p.ambiente, periodo := some p.periodo,
        elapsed := some (endMillis - startMillis) }
    | .error m =>
      { httpStatus := 500, success := false, error := some m,
        data := none, statusCode := none, ambiente := none, periodo := none,
        elapsed := some (endMillis - startMillis) }

/-- Containment of a tagged field: s splits as pre, the opening marker, the
content, the closing marker, post. -/
def containsMarked (s opener content closer : String) : Prop :=
  ∃ pre post, s = (pre ++ opener) ++ content ++ (closer ++ post)

/-- Modelled from the spec: the reporting-period default stated as "the current
UTC year-month formatted as YYYY-MM (four-digit year, hyphen, two-digit
zero-padded month)" — the year and month are taken from the epoch instant
itself, not from the local wall clock. -/
def specUtcPeriod (now : JsDate) : String :=
  let c := civilFromDays (Int.fdiv now.epochMillis 86400000)
  toString c.1 ++ "-" ++ jsPadStart (toString c.2.1) 2 '0'

/-- Modelled from the spec's formatting words, with the local wall clock the
code actually reads: the local year, a hyphen, the two-digit zero-padded local
month. -/
def specLocalPeriod (now : JsDate) : String :=
  toString (dateGetFullYear now) ++ "-"
    ++ jsPadStart (toString (dateGetMonth now + 1)) 2 '0'

/-- The prepared outbound request of a handler run, when one is produced. -/
def callOf (r : RelayRequest) (now : JsDate) : Option PreparedRequest :=
  match relayHandler r now with
  | .call p => some p
  | _ => none

/-- Fixed clock for witnesses: the epoch instant in a UTC environment. -/
def now0 : JsDate := { epochMillis := 0, tzOffsetMinutes := 0 }

/-- Clock at 2026-01-01T00:30Z in a UTC-1 environment (local wall clock still
2025-12-31T23:30). -/
def d1 : JsDate := { epochMillis := 1767227400000, tzOffsetMinutes := 60 }

/-- A request that passes all three validation checks, with action, perApur and
tpEvento omitted. -/
def rValid : RelayRequest :=
  { action := none, ambiente := some "producao", privateKeyPem := some "KEY",
    certificatePem := some "CERT", tpInsc := some "1",
    nrInsc := some "12345678901234", perApur := none, tpEvento := none }

/-- A request with every field absent (fails the credentials check). -/
def rNoCreds : RelayRequest :=
  { action := none, ambiente := none, privateKeyPem := none, certificatePem := none,
    tpInsc := none, nrInsc := none, perApur := none, tpEvento := none }

/-- The prepared outbound request of rValid at now0. -/
def pValid : PreparedRequest := (callOf rValid now0).getD default

/-- A 2000-character response body. -/
def body2000 : String := String.mk (List.replicate 2000 'a')

/-- A validated request's second check guarantees the recognized environment. -/
lemma validate_none_ambienteOk (r : RelayRequest) (h : validate r = none) :
    ambienteOk r = true := by
  cases hc : credentialsOk r with
  | false => simp [validate, hc] at h
  | true =>
    cases hab : ambienteOk r with
    | false => simp [validate, hc, hab] at h
    | true => rfl

/-- A recognized environment is present in the ESOCIAL_URLS table. -/
lemma ambienteOk_lookup (r : RelayRequest) (h : ambienteOk r = true) :
    ∃ cfg, ESOCIAL_URLS (r.ambiente.getD "") = some cfg := by
  unfold ambienteOk at h
  rw [Bool.and_eq_true] at h
  rcases h with ⟨-, hor⟩
  rw [Bool.or_eq_true] at hor
  rcases hor with hp | hp
  · rw [eq_of_beq hp]
    exact ⟨_, rfl⟩
  · rw [eq_of_beq hp]
    exact ⟨_, rfl⟩

/-- A validated request always finds its endpoint configuration. -/
lemma validate_none_lookup (r : RelayRequest) (h : validate r = none) :
    ∃ cfg, ESOCIAL_URLS (r.ambiente.getD "") = some cfg :=
  ambienteOk_lookup r (validate_none_ambienteOk r h)

/-- Characterization of the handler runs that reach the transport layer. -/
lemma relayHandler_call_iff (r : RelayRequest) (now : JsDate) (p : PreparedRequest) :
    relayHandler r now = .call p
      ↔ validate r = none
        ∧ ∃ cfg, ESOCIAL_URLS (r.ambiente.getD "") = some cfg
            ∧ p = prepareRequest r now cfg := by
  constructor
  · intro h
    cases hv : validate r with
    | some e => simp [relayHandler, hv] at h
    | none =>
      cases hcfg : ESOCIAL_URLS (r.ambiente.getD "") with
      | none => simp [relayHandler, hv, hcfg] at h
      | some cfg =>
        simp [relayHandler, hv, hcfg] at h
        exact ⟨rfl, cfg, rfl, h.symm⟩
  · rintro ⟨hv, cfg, hcfg, rfl⟩
    simp [relayHandler, hv, hcfg]

/-- Claim C2: for every registration-number string, the Download envelope's
nrInsc field equals the input with all non-digit characters removed and the
result truncated to at most 8 characters; in particular the input
12.345.678/0001-99 yields exactly 12345678. -/
theorem download_envelope_nrInsc_normalized (tpInsc nrInsc perApur tpEvento : String) :
    containsMarked (buildSoapEnvelope "download" tpInsc nrInsc perApur tpEvento)
      "<nrInsc>" (nrInscFormatted nrInsc) "</nrInsc>"
    ∧ (nrInscFormatted nrInsc).length ≤ 8
    ∧ nrInscFormatted "12.345.678/0001-99" = "12345678" := by
  refine ⟨⟨dlChunk1 ++ tpInsc ++ "</tpInsc>\n              ",
      "\n            </ideEmpregador>\n            <solicDownload>\n              <perApur>"
        ++ perApur ++ dlChunk4 ++ tpEvento ++ dlChunk5, ?_⟩, ?_, by decide⟩
  · unfold buildSoapEnvelope
    rw [if_neg (by decide : ¬ ("download" = "consultar"))]
    rw [show dlChunk2 = "</tpInsc>\n              " ++ "<nrInsc>" from by decide]
    rw [show dlChunk3
        = "</nrInsc>"
          ++ "\n            </ideEmpregador>\n            <solicDownload>\n              <perApur>"
        from by decide]
    simp only [String.append_assoc]
  · unfold nrInscFormatted jsSubstringTo
    rw [String.length_mk]
    exact List.length_take_le 8 _

/-- Claim C4: building the envelope for action consultar returns the same
byte-identical XML string for every pair of taxpayer inputs, and that string
carries the hardcoded protocoloEnvio tracking identifier 1. -/
theorem query_envelope_constant
    (tpInsc nrInsc perApur tpEvento tpInsc2 nrInsc2 perApur2 tpEvento2 : String) :
    buildSoapEnvelope "consultar" tpInsc nrInsc perApur tpEvento
      = buildSoapEnvelope "consultar" tpInsc2 nrInsc2 perApur2 tpEvento2
    ∧ containsMarked (buildSoapEnvelope "consultar" tpInsc nrInsc perApur tpEvento)
        "<protocoloEnvio>" "1" "</protocoloEnvio>" := by
  refine ⟨rfl, ?_⟩
  rw [show buildSoapEnvelope "consultar" tpInsc nrInsc perApur tpEvento = consultarEnvelope
    from rfl]
  exact ⟨"<?xml version=\"1.0\" encoding=\"utf-8\"?>\n<soap:Envelope xmlns:soap=\"http://www.w3.org/2003/05/soap-envelope\" xmlns:v1=\"http://www.esocial.gov.br/servicos/empregador/consulta/retornoProcessamento/v1_0_0\">\n  <soap:Header/>\n  <soap:Body>\n    <v1:ConsultarLoteEventos>\n      <v1:consulta>\n        <eSocial xmlns=\"http://www.esocial.gov.br/schema/consulta/retornoProcessamento/v1_0_0\">\n          <consultaLoteEventos>\n            ",
    "\n          </consultaLoteEventos>\n        </eSocial>\n      </v1:consulta>\n    </v1:ConsultarLoteEventos>\n  </soap:Body>\n</soap:Envelope>",
    by decide⟩

/-- Claim C3: a transport outcome with an HTTP response succeeds exactly when
the status code lies in the interval from 200 inclusive to 300 exclusive, in
which case the full accumulated body is returned; any other status yields the
RemoteError message carrying the status code and at most the first 500
characters of the body. -/
theorem transport_status_classification (statusCode : Nat) (chunks : List String) :
    ((∃ res, (makeHttpsRequest (.response statusCode chunks)).1 = .ok res)
      ↔ 200 ≤ statusCode ∧ statusCode < 300)
    ∧ (200 ≤ statusCode ∧ statusCode < 300 →
        (makeHttpsRequest (.response statusCode chunks)).1
          = .ok { data := String.join chunks, statusCode := statusCode })
    ∧ (¬(200 ≤ statusCode ∧ statusCode < 300) →
        (makeHttpsRequest (.response statusCode chunks)).1
          = .error ("eSocial retornou status " ++ toString statusCode ++ ": "
              ++ jsSubstringTo (String.join chunks) 500)
          ∧ (jsSubstringTo (String.join chunks) 500).length ≤ 500) := by
  have hlen : (jsSubstringTo (String.join chunks) 500).length ≤ 500 := by
    unfold jsSubstringTo
    rw [String.length_mk]
    exact List.length_take_le 500 _
  by_cases h : 200 ≤ statusCode ∧ statusCode < 300
  · refine ⟨?_, fun _ => ?_, fun hn => absurd h hn⟩
    · simp [makeHttpsRequest, h]
    · simp [makeHttpsRequest, h]
  · refine ⟨?_, fun hp => absurd hp h, fun _ => ⟨?_, hlen⟩⟩
    · simp [makeHttpsRequest, h]
    · simp [makeHttpsRequest, h]

/-- Claim C6: a request with the action field omitted is handled identically to
the same request with action download: same endpoint path, same SOAPAction
header, same envelope, same prepared outbound call. -/
theorem omitted_action_defaults_to_download
    (ambiente privateKeyPem certificatePem tpInsc nrInsc perApur tpEvento : Option String)
    (now : JsDate) :
    relayHandler
        ⟨none, ambiente, privateKeyPem, certificatePem, tpInsc, nrInsc, perApur, tpEvento⟩ now
      = relayHandler
          ⟨some "download", ambiente, privateKeyPem, certificatePem, tpInsc, nrInsc, perApur,
            tpEvento⟩ now := rfl

/-- Claim C1: the validator runs its three checks in source order, each failure
producing its distinct client error, the first failing check short-circuiting
the rest; when all checks pass the handler reaches the prepared outbound call,
and on any validation failure the outcome is a client error, never an outbound
call (so no envelope is built and no connection is attempted). -/
theorem relay_validation_order (r : RelayRequest) (now : JsDate) :
    (credentialsOk r = false →
      relayHandler r now = .clientError .MissingCredentials)
    ∧ (credentialsOk r = true → ambienteOk r = false →
      relayHandler r now = .clientError .InvalidEnvironment)
    ∧ (credentialsOk r = true → ambienteOk r = true → identifiersOk r = false →
      relayHandler r now = .clientError .MissingTaxpayerIdentifiers)
    ∧ (credentialsOk r = true → ambienteOk r = true → identifiersOk r = true →
      ∃ p, relayHandler r now = .call p)
    ∧ (∀ e, relayHandler r now = .clientError e → ∀ p, relayHandler r now ≠ .call p) := by
  refine ⟨?_, ?_, ?_, ?_, ?_⟩
  · intro h1
    simp [relayHandler, validate, h1]
  · intro h1 h2
    simp [relayHandler, validate, h1, h2]
  · intro h1 h2 h3
    simp [relayHandler, validate, h1, h2, h3]
  · intro h1 h2 h3
    have hv : validate r = none := by simp [validate, h1, h2, h3]
    obtain ⟨cfg, hcfg⟩ := validate_none_lookup r hv
    exact ⟨prepareRequest r now cfg, by simp [relayHandler, hv, hcfg]⟩
  · intro e he p hp
    rw [he] at hp
    exact HandlerOutcome.noConfusion hp

/-- Witness for C1: the all-absent request fails the first check and yields the
MissingCredentials client error. -/
theorem relay_validation_order_witness :
    relayHandler rNoCreds now0 = .clientError .MissingCredentials :=
  (relay_validation_order rNoCreds now0).1 (by decide)

/-- Claim C9: every prepared outbound call has server-certificate validation
enabled; no inbound request field can disable it. -/
theorem outbound_rejects_unauthorized (r : RelayRequest) (now : JsDate)
    (p : PreparedRequest) (h : relayHandler r now = .call p) :
    p.call.rejectUnauthorized = true := by
  obtain ⟨-, cfg, -, rfl⟩ := (relayHandler_call_iff r now p).mp h
  rfl

/-- Witness for C9: the concrete valid request yields an outbound call with
rejectUnauthorized set. -/
theorem outbound_rejects_unauthorized_witness :
    pValid.call.rejectUnauthorized = true :=
  outbound_rejects_unauthorized rValid now0 pValid (by decide)

/-- Claim C8: every prepared outbound call carries the single fixed 30000 ms
timeout, and the timeout event destroys the in-flight request and fails with
the fixed Timeout message. -/
theorem transport_timeout_thirty_seconds :
    (∀ (r : RelayRequest) (now : JsDate) (p : PreparedRequest),
      relayHandler r now = .call p → p.call.timeout = 30000)
    ∧ makeHttpsRequest .timeout
        = (.error "Timeout na conexão com eSocial (30s)", true) := by
  refine ⟨?_, rfl⟩
  intro r now p h
  obtain ⟨-, cfg, -, rfl⟩ := (relayHandler_call_iff r now p).mp h
  rfl

/-- Witness for C8: the concrete valid request yields an outbound call with the
30000 ms timeout. -/
theorem transport_timeout_thirty_seconds_witness :
    pValid.call.timeout = 30000 :=
  transport_timeout_thirty_seconds.1 rValid now0 pValid (by decide)

/-- Claim C10: a present action value other than consultar is silently treated
exactly as the download action: the handler outcome is identical to that of
action download on the same request. -/
theorem unrecognized_action_behaves_as_download (a : String)
    (ambiente privateKeyPem certificatePem tpInsc nrInsc perApur tpEvento : Option String)
    (now : JsDate) (h : a ≠ "consultar") :
    relayHandler
        ⟨some a, ambiente, privateKeyPem, certificatePem, tpInsc, nrInsc, perApur, tpEvento⟩ now
      = relayHandler
          ⟨some "download", ambiente, privateKeyPem, certificatePem, tpInsc, nrInsc, perApur,
            tpEvento⟩ now := by
  have hv : validate
      ⟨some a, ambiente, privateKeyPem, certificatePem, tpInsc, nrInsc, perApur, tpEvento⟩
      = validate
        ⟨some "download", ambiente, privateKeyPem, certificatePem, tpInsc, nrInsc, perApur,
          tpEvento⟩ := rfl
  cases hval : validate
      ⟨some "download", ambiente, privateKeyPem, certificatePem, tpInsc, nrInsc, perApur,
        tpEvento⟩ with
  | some e => simp [relayHandler, hv.trans hval, hval]
  | none =>
    cases hcfg : ESOCIAL_URLS (ambiente.getD "") with
    | none => simp [relayHandler, hv.trans hval, hval, hcfg]
    | some cfg =>
      have hp : prepareRequest
          ⟨some a, ambiente, privateKeyPem, certificatePem, tpInsc, nrInsc, perApur, tpEvento⟩
          now cfg
          = prepareRequest
            ⟨some "download", ambiente, privateKeyPem, certificatePem, tpInsc, nrInsc, perApur,
              tpEvento⟩ now cfg := by
        by_cases he : a.isEmpty
        · simp [prepareRequest, jsOr, jsTruthy, he]
        · simp [prepareRequest, jsOr, jsTruthy, he, h, buildSoapEnvelope]
      simp [relayHandler, hv.trans hval, hval, hcfg, hp]

/-- Witness for C10: the unrecognized action Query on an otherwise valid
request is handled exactly as action download. -/
theorem unrecognized_action_behaves_as_download_witness :
    relayHandler
        ⟨some "Query", some "producao", some "KEY", some "CERT", some "1",
          some "12345678901234", none, none⟩ now0
      = relayHandler
          ⟨some "download", some "producao", some "KEY", some "CERT", some "1",
            some "12345678901234", none, none⟩ now0 :=
  unrecognized_action_behaves_as_download "Query" (some "producao") (some "KEY") (some "CERT")
    (some "1") (some "12345678901234") none none now0 (by decide)

/-- Counterexample to claim C5 as stated: at the instant 2026-01-01T00:30Z in a
UTC-1 environment, the valid request rValid (perApur omitted, Download action)
produces an envelope whose period is the local year-month 2025-12, not the
current UTC year-month 2026-01. -/
theorem period_uses_local_not_utc_counterexample :
    rValid.perApur = none
    ∧ specUtcPeriod d1 = "2026-01"
    ∧ (callOf rValid d1).map (fun p => p.periodo) = some "2025-12"
    ∧ (callOf rValid d1).map (fun p => p.call.body)
        = some (buildSoapEnvelope "download" "1" "12345678901234" "2025-12" "S-5002")
    ∧ ("2025-12" : String) ≠ specUtcPeriod d1 :=
  ⟨rfl, by decide, by decide, by decide, by decide⟩

/-- Claim C5 (amended): for every request resolving to the Download action with
perApur omitted, the period inserted into the generated envelope equals the
current local wall-clock year-month formatted YYYY-MM (year, hyphen, two-digit
zero-padded month) — local time, not UTC. -/
theorem relay_period_default_local (r : RelayRequest) (now : JsDate) (p : PreparedRequest)
    (hper : r.perApur = none)
    (hact : jsOr r.action "download" ≠ "consultar")
    (hcall : relayHandler r now = .call p) :
    p.periodo = specLocalPeriod now
    ∧ containsMarked p.call.body "<perApur>" (specLocalPeriod now) "</perApur>" := by
  obtain ⟨-, cfg, -, rfl⟩ := (relayHandler_call_iff r now p).mp hcall
  have hperiod : jsOr r.perApur (getCurrentPeriod now) = specLocalPeriod now := by
    rw [hper]
    rfl
  constructor
  · exact hperiod
  · show containsMarked
      (buildSoapEnvelope (jsOr r.action "download") (r.tpInsc.getD "") (r.nrInsc.getD "")
        (jsOr r.perApur (getCurrentPeriod now)) (jsOr r.tpEvento "S-5002"))
      "<perApur>" (specLocalPeriod now) "</perApur>"
    rw [hperiod]
    unfold buildSoapEnvelope
    rw [if_neg hact]
    refine ⟨dlChunk1 ++ r.tpInsc.getD "" ++ dlChunk2 ++ nrInscFormatted (r.nrInsc.getD "")
        ++ "</nrInsc>\n            </ideEmpregador>\n            <solicDownload>\n              ",
      "\n              <tpEvento>" ++ jsOr r.tpEvento "S-5002" ++ dlChunk5, ?_⟩
    rw [show dlChunk3
        = "</nrInsc>\n            </ideEmpregador>\n            <solicDownload>\n              "
          ++ "<perApur>" from by decide]
    rw [show dlChunk4 = "</perApur>" ++ "\n              <tpEvento>" from by decide]
    simp only [String.append_assoc]

/-- Witness for the amended C5: the concrete valid request (perApur omitted) at
the epoch instant carries the local period 1970-01 in its envelope. -/
theorem relay_period_default_local_witness :
    rValid.perApur = none
    ∧ jsOr rValid.action "download" ≠ "consultar"
    ∧ relayHandler rValid now0 = .call pValid
    ∧ (pValid.periodo = specLocalPeriod now0
      ∧ containsMarked pValid.call.body "<perApur>" (specLocalPeriod now0) "</perApur>") :=
  ⟨rfl, by decide, by decide,
    relay_period_default_local rValid now0 pValid rfl (by decide) (by decide)⟩

/-- Counterexample to claim C7 as stated: a request failing validation gets a
400 error response whose JSON body has no elapsed field at all. -/
theorem validation_response_no_elapsed_counterexample :
    (apiEsocial rNoCreds now0 (.response 200 []) 0 5).httpStatus = 400
    ∧ (apiEsocial rNoCreds now0 (.response 200 []) 0 5).success = false
    ∧ (apiEsocial rNoCreds now0 (.response 200 []) 0 5).elapsed = none := by
  refine ⟨by decide, by decide, by decide⟩

/-- Claim C7 (amended): the transport and remote error responses (status 500)
include the elapsed wall-clock time from request acceptance to result, but the
client-error (400) validation responses do not carry an elapsed field. -/
theorem error_responses_elapsed (r : RelayRequest) (now : JsDate) (tr : TransportEvent)
    (startMillis endMillis : Int) :
    (∀ e, validate r = some e →
      apiEsocial r now tr startMillis endMillis
        = { httpStatus := 400, success := false,
            error := some (validationErrorMessage e), data := none, statusCode := none,
            ambiente := none, periodo := none, elapsed := none })
    ∧ (validate r = none → ∀ m, (makeHttpsRequest tr).1 = .error m →
        (apiEsocial r now tr startMillis endMillis).httpStatus = 500
        ∧ (apiEsocial r now tr startMillis endMillis).error = some m
        ∧ (apiEsocial r now tr startMillis endMillis).elapsed
            = some (endMillis - startMillis)) := by
  constructor
  · intro e he
    simp [apiEsocial, relayHandler, he]
  · intro hv m hm
    obtain ⟨cfg, hcfg⟩ := validate_none_lookup r hv
    have hh : relayHandler r now = .call (prepareRequest r now cfg) := by
      simp [relayHandler, hv, hcfg]
    simp [apiEsocial, hh, hm]

/-- Witness for the amended C7: the valid request with a transport timeout gets
a 500 response carrying the timeout message and the elapsed time. -/
theorem error_responses_elapsed_witness :
    validate rValid = none
    ∧ ((apiEsocial rValid now0 .timeout 100 250).httpStatus = 500
      ∧ (apiEsocial rValid now0 .timeout 100 250).error
          = some "Timeout na conexão com eSocial (30s)"
      ∧ (apiEsocial rValid now0 .timeout 100 250).elapsed = some (250 - 100)) :=
  ⟨by decide,
    (error_responses_elapsed rValid now0 .timeout 100 250).2 (by decide)
      "Timeout na conexão com eSocial (30s)" rfl⟩

/-- Witness for C3: a 503 response with a 2000-character body is rejected with
the status code and at most the first 500 characters of that body. -/
theorem transport_status_classification_witness :
    ¬(200 ≤ 503 ∧ 503 < 300)
    ∧ ((makeHttpsRequest (.response 503 [body2000])).1
        = .error ("eSocial retornou status " ++ toString 503 ++ ": "
            ++ jsSubstringTo (String.join [body2000]) 500)
      ∧ (jsSubstringTo (String.join [body2000]) 500).length ≤ 500) :=
  ⟨by decide, (transport_status_classification 503 [body2000]).2.2 (by decide)⟩
